import Mathlib

/-!
Shallow embedding of the weather aggregation pipeline of `sleep_app.py`.

The embedding covers:
* `filter_nighttime_data` (the live-path night-window aggregator),
* `get_historical_weather` (the historical-path aggregator built on pandas),
* `get_hourly_weather` (station selection on the live path).

Modelling conventions:
* Python numeric values are rationals (`ℚ`); `round(x, 2)` is round-half-to-even
  at two decimal places, which is Python's rounding of exactly representable
  values.
* A Python dict value that can be `None`, NaN or a number is modelled by the
  sum type `PyVal`.
* Network responses are passed to the embedded functions as explicit data;
  the second network hop of `get_hourly_weather` is an explicit function
  argument from station identifiers to observation lists.
* An observation's parsed UTC timestamp enters the computation only through
  its hour-of-day, so an observation carries `utcHour : ℕ`.
* pandas semantics used by `get_historical_weather`:
  `pd.DataFrame` of a dict of columns raises `ValueError` when the columns do
  not all have the same length; a `Series.mean()` skips nulls/NaN and returns
  NaN when no non-null value remains; `round` maps NaN to NaN.
-/

namespace SleepApp

/-- A Python value stored in one of the aggregate dicts: `None`, the float
`nan`, or an ordinary number. -/
inductive PyVal where
  | none : PyVal
  | nan : PyVal
  | num : ℚ → PyVal
deriving DecidableEq, Repr

/-- Floor of a rational number, computed from numerator and denominator. -/
def ratFloor (q : ℚ) : ℤ := Int.fdiv q.num (q.den : ℤ)

/-- Round a rational to the nearest integer, ties to even. -/
def roundHalfEven (q : ℚ) : ℤ :=
  let f := ratFloor q
  let r := q - (f : ℚ)
  if r < 1 / 2 then f
  else if 1 / 2 < r then f + 1
  else if f % 2 = 0 then f else f + 1

/-- Python `round(x, 2)`: round to two decimal places, ties to even. -/
def roundTo2 (q : ℚ) : ℚ := ((roundHalfEven (q * 100) : ℤ) : ℚ) / 100

/-- Python `sum(xs) / len(xs)`. -/
def mean (l : List ℚ) : ℚ := l.sum / (l.length : ℚ)

/-- The `properties` object of one live-path observation entry
(`sleep_app.py` lines 63-75).  Each metric wrapper is
`Option (Option ℚ)`: outer `none` models a falsy wrapper (JSON `null` or an
empty object), `some none` a wrapper object whose `value` is `null`, and
`some (some v)` a wrapper carrying the number `v`.  `utcHour` is the
hour-of-day of the parsed `Z`-suffixed timestamp; nothing else of the
timestamp is consumed by the pipeline. -/
structure ObsProps where
  utcHour : ℕ
  temperature : Option (Option ℚ)
  relativeHumidity : Option (Option ℚ)
  barometricPressure : Option (Option ℚ)
  windSpeed : Option (Option ℚ)
deriving DecidableEq, Repr

/-- `(ts_utc + datetime.timedelta(hours=tz_offset)).hour`
(`sleep_app.py` line 65): shifting a timestamp by a whole number of hours
and reading its hour-of-day is addition modulo 24. -/
def localHour (utcHour : ℕ) (tz_offset : ℤ) : ℤ := ((utcHour : ℤ) + tz_offset) % 24

/-- The night-window test of `sleep_app.py` line 66 and line 118:
`hour >= start_hour or hour <= end_hour`. -/
def keeps (start_hour end_hour : ℕ) (h : ℤ) : Bool :=
  decide ((start_hour : ℤ) ≤ h) || decide (h ≤ (end_hour : ℤ))

/-- The guard pattern `wrapper and wrapper["value"] is not None`
(`sleep_app.py` lines 68, 70, 72, 74): a value is extracted exactly when the
wrapper is truthy and its inner value is not `None`. -/
def extractVal (w : Option (Option ℚ)) : Option ℚ :=
  match w with
  | some (some v) => some v
  | _ => none

/-- `list.append(wrapper["value"])` guarded by `extractVal`, contributing to
the front of the collection built by structural recursion (the resulting
list order equals the source's append order). -/
def maybeAppend (w : Option (Option ℚ)) (l : List ℚ) : List ℚ :=
  match extractVal w with
  | some v => v :: l
  | Option.none => l

/-- The collection loop of `filter_nighttime_data` (`sleep_app.py`
lines 58-75): the four lists `temps`, `humidity`, `pressure`, `wind`. -/
def collectNighttime (observations : List ObsProps) (start_hour end_hour : ℕ)
    (tz_offset : ℤ) : List ℚ × List ℚ × List ℚ × List ℚ :=
  match observations with
  | [] => ([], [], [], [])
  | obs :: rest =>
    let acc := collectNighttime rest start_hour end_hour tz_offset
    if keeps start_hour end_hour (localHour obs.utcHour tz_offset) = true then
      (maybeAppend obs.temperature acc.1,
       maybeAppend obs.relativeHumidity acc.2.1,
       maybeAppend obs.barometricPressure acc.2.2.1,
       maybeAppend obs.windSpeed acc.2.2.2)
    else acc

/-- The result dict of both aggregators: the four averaged metrics, keyed
`avg_temp_C`, `avg_humidity_percent`, `avg_pressure_Pa`, `avg_wind_mps`. -/
structure AggregateRecord where
  avg_temp_C : PyVal
  avg_humidity_percent : PyVal
  avg_pressure_Pa : PyVal
  avg_wind_mps : PyVal
deriving DecidableEq, Repr

/-- `round(sum(xs)/len(xs), 2) if xs else None`
(`sleep_app.py` lines 78-81). -/
def avgOrNone (l : List ℚ) : PyVal :=
  if l = [] then PyVal.none else PyVal.num (roundTo2 (mean l))

/-- `filter_nighttime_data(observations, start_hour, end_hour, tz_offset)`
(`sleep_app.py` lines 53-82).  The source's defaults are
`start_hour=21`, `end_hour=6`, `tz_offset=-4`; here they are always passed
explicitly. -/
def filter_nighttime_data (observations : List ObsProps)
    (start_hour end_hour : ℕ) (tz_offset : ℤ) : AggregateRecord :=
  let c := collectNighttime observations start_hour end_hour tz_offset
  { avg_temp_C := avgOrNone c.1
    avg_humidity_percent := avgOrNone c.2.1
    avg_pressure_Pa := avgOrNone c.2.2.1
    avg_wind_mps := avgOrNone c.2.2.2 }

/-- The dict literal returned at `sleep_app.py` lines 77-82 (and mirrored by
the dict at lines 120-125), as an ordered key-value list. -/
def AggregateRecord.toDict (r : AggregateRecord) : List (String × PyVal) :=
  [("avg_temp_C", r.avg_temp_C),
   ("avg_humidity_percent", r.avg_humidity_percent),
   ("avg_pressure_Pa", r.avg_pressure_Pa),
   ("avg_wind_mps", r.avg_wind_mps)]

/-- Python truthiness test `not d` applied to a dict rendered as a key-value
list: true exactly when the dict is empty (`sleep_app.py` line 187). -/
def py_not_dict (d : List (String × PyVal)) : Bool := d.isEmpty

/-! ### Historical path -/

/-- One entry of the archive's `hourly.time` array after
`pd.to_datetime`: a local-naive timestamp of which only the hour-of-day is
consumed (`df["time"].dt.hour`, `sleep_app.py` line 118). -/
structure NaiveTime where
  hour : ℕ
deriving DecidableEq, Repr

/-- The `hourly` object of an archive response (`sleep_app.py`
lines 103-107): five parallel arrays; each metric entry is `none` for a JSON
`null` (which pandas stores as NaN) and `some v` for the number `v`. -/
structure HourlyData where
  time : List NaiveTime
  temperature_2m : List (Option ℚ)
  relative_humidity_2m : List (Option ℚ)
  pressure_msl : List (Option ℚ)
  windspeed_10m : List (Option ℚ)
deriving DecidableEq, Repr

/-- One row of the DataFrame built at `sleep_app.py` lines 109-115. -/
structure HistRow where
  time : NaiveTime
  temperature_C : Option ℚ
  humidity_percent : Option ℚ
  pressure_Pa : Option ℚ
  wind_mps : Option ℚ
deriving DecidableEq, Repr

/-- Row-wise view of the DataFrame of `sleep_app.py` lines 109-115, defined
when the five columns have equal length (positional zip). -/
def buildRows : List NaiveTime → List (Option ℚ) → List (Option ℚ) →
    List (Option ℚ) → List (Option ℚ) → List HistRow
  | t :: ts, a :: l1, b :: l2, c :: l3, d :: l4 =>
    ⟨t, a, b, c, d⟩ :: buildRows ts l1 l2 l3 l4
  | _, _, _, _, _ => []

/-- The length check `pd.DataFrame` performs on its column dict: it raises
`ValueError` unless all five arrays have the same length. -/
def allSameLength (d : HourlyData) : Bool :=
  decide (d.temperature_2m.length = d.time.length) &&
  decide (d.relative_humidity_2m.length = d.time.length) &&
  decide (d.pressure_msl.length = d.time.length) &&
  decide (d.windspeed_10m.length = d.time.length)

/-- The error raised on the historical path when the archive arrays have
inconsistent lengths (`pd.DataFrame`'s `ValueError`, the spec's
`MalformedArchiveResponse`). -/
inductive HistError where
  | malformedArchiveResponse : HistError
deriving DecidableEq, Repr

/-- The nighttime row selection
`df[(df["time"].dt.hour >= start_hour) | (df["time"].dt.hour <= end_hour)]`
(`sleep_app.py` line 118): the hour is used unshifted. -/
def night_rows (d : HourlyData) (start_hour end_hour : ℕ) : List HistRow :=
  (buildRows d.time d.temperature_2m d.relative_humidity_2m
      d.pressure_msl d.windspeed_10m).filter
    (fun row => keeps start_hour end_hour (row.time.hour : ℤ))

/-- `round(column.mean(), 2)` on a pandas column: the mean skips nulls/NaN;
on an empty or all-null column it is NaN, and `round` keeps NaN. -/
def round_mean_2 (column : List (Option ℚ)) : PyVal :=
  let vals := column.filterMap id
  if vals = [] then PyVal.nan else PyVal.num (roundTo2 (mean vals))

/-- `get_historical_weather` (`sleep_app.py` lines 89-125) applied to a
decoded archive response.  The source function takes `lat`, `lon`, `date`
(which only form the request URL), `start_hour` and `end_hour`; it has no
timezone-offset parameter.  Unequal array lengths make the `pd.DataFrame`
call raise, yielding no partial result. -/
def get_historical_weather (d : HourlyData) (start_hour end_hour : ℕ) :
    Except HistError AggregateRecord :=
  if allSameLength d = true then
    let dfNight := night_rows d start_hour end_hour
    Except.ok
      { avg_temp_C := round_mean_2 (dfNight.map HistRow.temperature_C)
        avg_humidity_percent := round_mean_2 (dfNight.map HistRow.humidity_percent)
        avg_pressure_Pa := round_mean_2 (dfNight.map HistRow.pressure_Pa)
        avg_wind_mps := round_mean_2 (dfNight.map HistRow.wind_mps) }
  else Except.error HistError.malformedArchiveResponse

/-! ### Live-path station selection -/

/-- One entry of the stations list's `features` array; only
`properties.stationIdentifier` is consumed (`sleep_app.py` line 46). -/
structure StationFeature where
  stationIdentifier : String
deriving DecidableEq, Repr

/-- The error raised at `sleep_app.py` line 44 when the stations list is
empty (the spec's `NoStationsNearby`). -/
inductive LiveError where
  | noStationsNearby : LiveError
deriving DecidableEq, Repr

/-- `get_hourly_weather` (`sleep_app.py` lines 36-50) applied to a decoded
stations response.  The second network hop — dereferencing the chosen
station's observations URL — is the explicit argument `fetchObs`. -/
def get_hourly_weather (features : List StationFeature)
    (fetchObs : String → List ObsProps) : Except LiveError (List ObsProps) :=
  match features with
  | [] => Except.error LiveError.noStationsNearby
  | f :: _ => Except.ok (fetchObs f.stationIdentifier)

/-! ### Spec-side views used to state the claims -/

/-- The observations the live-path loop keeps: those whose shifted local
hour passes the night-window test. -/
def keptObs (obs : List ObsProps) (start_hour end_hour : ℕ) (tz_offset : ℤ) :
    List ObsProps :=
  obs.filter (fun o => keeps start_hour end_hour (localHour o.utcHour tz_offset))

/-- The temperature values the live-path loop collects, described
declaratively. -/
def keptTemps (obs : List ObsProps) (start_hour end_hour : ℕ) (tz_offset : ℤ) :
    List ℚ :=
  (keptObs obs start_hour end_hour tz_offset).filterMap
    (fun o => extractVal o.temperature)

/-- The humidity values the live-path loop collects. -/
def keptHums (obs : List ObsProps) (start_hour end_hour : ℕ) (tz_offset : ℤ) :
    List ℚ :=
  (keptObs obs start_hour end_hour tz_offset).filterMap
    (fun o => extractVal o.relativeHumidity)

/-- The pressure values the live-path loop collects. -/
def keptPress (obs : List ObsProps) (start_hour end_hour : ℕ) (tz_offset : ℤ) :
    List ℚ :=
  (keptObs obs start_hour end_hour tz_offset).filterMap
    (fun o => extractVal o.barometricPressure)

/-- The wind values the live-path loop collects. -/
def keptWinds (obs : List ObsProps) (start_hour end_hour : ℕ) (tz_offset : ℤ) :
    List ℚ :=
  (keptObs obs start_hour end_hour tz_offset).filterMap
    (fun o => extractVal o.windSpeed)

/-- The non-null values of one metric among the kept rows of the historical
path, described declaratively. -/
def histKeptVals (d : HourlyData) (start_hour end_hour : ℕ)
    (proj : HistRow → Option ℚ) : List ℚ :=
  ((night_rows d start_hour end_hour).map proj).filterMap id

/-! ### Helper lemmas -/

theorem maybeAppend_none {w : Option (Option ℚ)} (h : extractVal w = Option.none)
    (l : List ℚ) : maybeAppend w l = l := by
  simp [maybeAppend, h]

theorem maybeAppend_some {w : Option (Option ℚ)} {v : ℚ}
    (h : extractVal w = some v) (l : List ℚ) : maybeAppend w l = v :: l := by
  simp [maybeAppend, h]

theorem collect_fst (obs : List ObsProps) (s e : ℕ) (tz : ℤ) :
    (collectNighttime obs s e tz).1 = keptTemps obs s e tz := by
  induction obs with
  | nil => rfl
  | cons o rest ih =>
    simp only [collectNighttime, keptTemps, keptObs, List.filter_cons] at *
    cases hk : keeps s e (localHour o.utcHour tz) with
    | false => simpa [hk] using ih
    | true =>
      cases hw : extractVal o.temperature with
      | none => simp [hk, maybeAppend_none hw, List.filterMap_cons, hw, ih]
      | some v => simp [hk, maybeAppend_some hw, List.filterMap_cons, hw, ih]

theorem collect_hum (obs : List ObsProps) (s e : ℕ) (tz : ℤ) :
    (collectNighttime obs s e tz).2.1 = keptHums obs s e tz := by
  induction obs with
  | nil => rfl
  | cons o rest ih =>
    simp only [collectNighttime, keptHums, keptObs, List.filter_cons] at *
    cases hk : keeps s e (localHour o.utcHour tz) with
    | false => simpa [hk] using ih
    | true =>
      cases hw : extractVal o.relativeHumidity with
      | none => simp [hk, maybeAppend_none hw, List.filterMap_cons, hw, ih]
      | some v => simp [hk, maybeAppend_some hw, List.filterMap_cons, hw, ih]

theorem collect_press (obs : List ObsProps) (s e : ℕ) (tz : ℤ) :
    (collectNighttime obs s e tz).2.2.1 = keptPress obs s e tz := by
  induction obs with
  | nil => rfl
  | cons o rest ih =>
    simp only [collectNighttime, keptPress, keptObs, List.filter_cons] at *
    cases hk : keeps s e (localHour o.utcHour tz) with
    | false => simpa [hk] using ih
    | true =>
      cases hw : extractVal o.barometricPressure with
      | none => simp [hk, maybeAppend_none hw, List.filterMap_cons, hw, ih]
      | some v => simp [hk, maybeAppend_some hw, List.filterMap_cons, hw, ih]

theorem collect_wind (obs : List ObsProps) (s e : ℕ) (tz : ℤ) :
    (collectNighttime obs s e tz).2.2.2 = keptWinds obs s e tz := by
  induction obs with
  | nil => rfl
  | cons o rest ih =>
    simp only [collectNighttime, keptWinds, keptObs, List.filter_cons] at *
    cases hk : keeps s e (localHour o.utcHour tz) with
    | false => simpa [hk] using ih
    | true =>
      cases hw : extractVal o.windSpeed with
      | none => simp [hk, maybeAppend_none hw, List.filterMap_cons, hw, ih]
      | some v => simp [hk, maybeAppend_some hw, List.filterMap_cons, hw, ih]

theorem filter_nighttime_fields (obs : List ObsProps) (s e : ℕ) (tz : ℤ) :
    filter_nighttime_data obs s e tz =
      { avg_temp_C := avgOrNone (keptTemps obs s e tz)
        avg_humidity_percent := avgOrNone (keptHums obs s e tz)
        avg_pressure_Pa := avgOrNone (keptPress obs s e tz)
        avg_wind_mps := avgOrNone (keptWinds obs s e tz) } := by
  simp only [filter_nighttime_data, collect_fst, collect_hum, collect_press,
    collect_wind]

theorem ratFloor_int (n : ℤ) : ratFloor (n : ℚ) = n := by
  simp only [ratFloor, Rat.num_intCast, Rat.den_intCast]
  rw [Int.fdiv_eq_ediv _ (by norm_num)]
  exact Int.ediv_one n

theorem roundHalfEven_int (n : ℤ) : roundHalfEven (n : ℚ) = n := by
  simp [roundHalfEven, ratFloor_int]

theorem roundTo2_int (n : ℤ) : roundTo2 (n : ℚ) = n := by
  have h : ((n : ℚ) * 100) = ((n * 100 : ℤ) : ℚ) := by push_cast; ring
  rw [roundTo2, h, roundHalfEven_int]
  push_cast
  field_simp

theorem maybeAppend_nil (w : Option (Option ℚ)) :
    maybeAppend w [] = (extractVal w).toList := by
  cases h : extractVal w <;> simp [maybeAppend, h]

theorem avgOrNone_spec (l : List ℚ) :
    (avgOrNone l = PyVal.none ↔ l = []) ∧
    (l ≠ [] → avgOrNone l = PyVal.num (roundTo2 (mean l))) := by
  unfold avgOrNone
  by_cases h : l = [] <;> simp [h]

theorem avgOrNone_none_or_num (l : List ℚ) :
    avgOrNone l = PyVal.none ∨ ∃ q, avgOrNone l = PyVal.num q := by
  unfold avgOrNone
  by_cases h : l = [] <;> simp [h]

theorem round_mean_2_spec (column : List (Option ℚ)) :
    (round_mean_2 column = PyVal.nan ↔ column.filterMap id = []) ∧
    (column.filterMap id ≠ [] →
      round_mean_2 column = PyVal.num (roundTo2 (mean (column.filterMap id)))) := by
  unfold round_mean_2
  by_cases h : column.filterMap id = [] <;> simp [h]

theorem get_historical_ok (d : HourlyData) (s e : ℕ) (r : AggregateRecord)
    (h : get_historical_weather d s e = Except.ok r) :
    r = { avg_temp_C := round_mean_2 ((night_rows d s e).map HistRow.temperature_C)
          avg_humidity_percent :=
            round_mean_2 ((night_rows d s e).map HistRow.humidity_percent)
          avg_pressure_Pa := round_mean_2 ((night_rows d s e).map HistRow.pressure_Pa)
          avg_wind_mps := round_mean_2 ((night_rows d s e).map HistRow.wind_mps) } := by
  unfold get_historical_weather at h
  by_cases hl : allSameLength d = true
  · simp only [hl, if_pos] at h
    exact (Except.ok.injEq _ _ ▸ h).symm
  · simp [hl] at h

/-! ### Concrete inputs used by counterexamples and witnesses -/

/-- An archive response with a single noon entry: the arrays have equal
lengths, but no row falls in the default night window. -/
def histNoon : HourlyData :=
  ⟨[⟨12⟩], [some 5], [some 50], [some 100000], [some 3]⟩

/-- An archive response whose metric arrays have lengths inconsistent with
the time array. -/
def dUnequal : HourlyData := ⟨[], [some 1], [], [], []⟩

/-- An archive response with a single midnight entry and all-null metrics. -/
def dNight0 : HourlyData :=
  ⟨[⟨0⟩], [Option.none], [Option.none], [Option.none], [Option.none]⟩

/-- The DataFrame row of `dNight0`. -/
def rowNight0 : HistRow :=
  ⟨⟨0⟩, Option.none, Option.none, Option.none, Option.none⟩

/-- Scenario A of the spec: UTC hours `[0,1,2,3,4,9,11]`, which the default
offset `-4` localizes to `[20,21,22,23,0,5,7]`, with temperatures
`[10,…,16]` and no other metric present. -/
def scenarioA : List ObsProps :=
  [⟨0, some (some 10), Option.none, Option.none, Option.none⟩,
   ⟨1, some (some 11), Option.none, Option.none, Option.none⟩,
   ⟨2, some (some 12), Option.none, Option.none, Option.none⟩,
   ⟨3, some (some 13), Option.none, Option.none, Option.none⟩,
   ⟨4, some (some 14), Option.none, Option.none, Option.none⟩,
   ⟨9, some (some 15), Option.none, Option.none, Option.none⟩,
   ⟨11, some (some 16), Option.none, Option.none, Option.none⟩]

/-- Two in-window observations (local hours 21 and 22) with temperature and
humidity present. -/
def obsLive2 : List ObsProps :=
  [⟨1, some (some 10), some (some 50), Option.none, Option.none⟩,
   ⟨2, some (some 14), some (some 60), Option.none, Option.none⟩]

/-- An in-window observation whose wrappers are a null-valued temperature, a
missing humidity, a null-valued pressure and a missing wind speed, followed
by an out-of-window observation (local hour 12) carrying values. -/
def obsAllNullKept : List ObsProps :=
  [⟨1, some Option.none, Option.none, some Option.none, Option.none⟩,
   ⟨16, some (some 10), some (some 50), some (some 3), some (some 4)⟩]

/-- An in-window observation (local hour 21) with a null-valued temperature
wrapper, humidity 50 and wind 2. -/
def oW : ObsProps :=
  ⟨1, some Option.none, some (some 50), Option.none, some (some 2)⟩

/-- A second network hop used by a witness: station `S1` serves Scenario A,
every other station serves nothing. -/
def fetchW : String → List ObsProps :=
  fun s => if s = "S1" then scenarioA else []

/-! ### Claims -/

/-- C2: the aggregator never fails.  For every observation list in which each
in-window observation carries only absent or null metric values (which
includes the empty list), `filter_nighttime_data` returns the all-`None`
record; the embedded function is total, so no input raises. -/
theorem C2_all_null_yields_all_none (obs : List ObsProps) (s e : ℕ) (tz : ℤ)
    (h : ∀ o ∈ obs, keeps s e (localHour o.utcHour tz) = true →
        (extractVal o.temperature = Option.none ∧
         extractVal o.relativeHumidity = Option.none ∧
         extractVal o.barometricPressure = Option.none ∧
         extractVal o.windSpeed = Option.none)) :
    filter_nighttime_data obs s e tz =
      { avg_temp_C := PyVal.none
        avg_humidity_percent := PyVal.none
        avg_pressure_Pa := PyVal.none
        avg_wind_mps := PyVal.none } := by
  rw [filter_nighttime_fields]
  have ht : keptTemps obs s e tz = [] := by
    unfold keptTemps keptObs
    rw [List.filterMap_eq_nil_iff]
    intro o ho
    rw [List.mem_filter] at ho
    exact (h o ho.1 ho.2).1
  have hh : keptHums obs s e tz = [] := by
    unfold keptHums keptObs
    rw [List.filterMap_eq_nil_iff]
    intro o ho
    rw [List.mem_filter] at ho
    exact (h o ho.1 ho.2).2.1
  have hp : keptPress obs s e tz = [] := by
    unfold keptPress keptObs
    rw [List.filterMap_eq_nil_iff]
    intro o ho
    rw [List.mem_filter] at ho
    exact (h o ho.1 ho.2).2.2.1
  have hw : keptWinds obs s e tz = [] := by
    unfold keptWinds keptObs
    rw [List.filterMap_eq_nil_iff]
    intro o ho
    rw [List.mem_filter] at ho
    exact (h o ho.1 ho.2).2.2.2
  simp [ht, hh, hp, hw, avgOrNone]

/-- C2 witness: the empty input and an input whose only in-window
observation is all-null both yield the all-`None` record. -/
theorem C2_witness :
    filter_nighttime_data [] 21 6 (-4) =
      { avg_temp_C := PyVal.none
        avg_humidity_percent := PyVal.none
        avg_pressure_Pa := PyVal.none
        avg_wind_mps := PyVal.none } ∧
    filter_nighttime_data obsAllNullKept 21 6 (-4) =
      { avg_temp_C := PyVal.none
        avg_humidity_percent := PyVal.none
        avg_pressure_Pa := PyVal.none
        avg_wind_mps := PyVal.none } :=
  ⟨C2_all_null_yields_all_none [] 21 6 (-4) (by decide),
   C2_all_null_yields_all_none obsAllNullKept 21 6 (-4) (by decide)⟩

/-- C3: an observation is kept exactly when its local hour `h` satisfies
`h >= start_hour ∨ h <= end_hour`, on the live path (after the offset
shift) and on the historical path (raw hour); with the default window
`(21, 6)`, hour 21 qualifies, hour 20 does not, hour 6 qualifies and hour 7
does not. -/
theorem C3_window_membership (s e : ℕ) (tz : ℤ) :
    (∀ h : ℤ, keeps s e h = true ↔ ((s : ℤ) ≤ h ∨ h ≤ (e : ℤ))) ∧
    (∀ (obs : List ObsProps) (o : ObsProps),
        o ∈ keptObs obs s e tz ↔
          (o ∈ obs ∧
           ((s : ℤ) ≤ localHour o.utcHour tz ∨ localHour o.utcHour tz ≤ (e : ℤ)))) ∧
    (∀ (d : HourlyData) (row : HistRow),
        row ∈ night_rows d s e ↔
          (row ∈ buildRows d.time d.temperature_2m d.relative_humidity_2m
              d.pressure_msl d.windspeed_10m ∧
           ((s : ℤ) ≤ (row.time.hour : ℤ) ∨ (row.time.hour : ℤ) ≤ (e : ℤ)))) ∧
    (keeps 21 6 21 = true ∧ keeps 21 6 20 = false ∧
     keeps 21 6 6 = true ∧ keeps 21 6 7 = false) := by
  refine ⟨?_, ?_, ?_, by decide⟩
  · intro h
    simp [keeps]
  · intro obs o
    simp [keptObs, List.mem_filter, keeps]
  · intro d row
    simp [night_rows, List.mem_filter, keeps]

/-- C3 witness: the boundary facts of the default window, read off from the
theorem at the default parameters. -/
theorem C3_witness :
    keeps 21 6 21 = true ∧ keeps 21 6 20 = false ∧
    keeps 21 6 6 = true ∧ keeps 21 6 7 = false :=
  (C3_window_membership 21 6 (-4)).2.2.2

/-- C4: archive arrays of unequal lengths make the historical fetcher fail
with `MalformedArchiveResponse` (the `ValueError` of the `pd.DataFrame`
construction), and no partial aggregate is returned. -/
theorem C4_unequal_lengths_error (d : HourlyData) (s e : ℕ)
    (h : ¬(d.temperature_2m.length = d.time.length ∧
           d.relative_humidity_2m.length = d.time.length ∧
           d.pressure_msl.length = d.time.length ∧
           d.windspeed_10m.length = d.time.length)) :
    get_historical_weather d s e =
      Except.error HistError.malformedArchiveResponse := by
  have hfalse : ¬(allSameLength d = true) := by
    simp only [allSameLength, Bool.and_eq_true, decide_eq_true_eq]
    tauto
  simp [get_historical_weather, hfalse]

/-- C4 witness: a response whose time array is empty while its temperature
array has one entry fails with `MalformedArchiveResponse`. -/
theorem C4_witness :
    get_historical_weather dUnequal 21 6 =
      Except.error HistError.malformedArchiveResponse :=
  C4_unequal_lengths_error dUnequal 21 6 (by decide)

/-- C5: a live-path metric contributes to averaging exactly when its wrapper
exists and its inner value is non-null; a wrapper present with a null value
is excluded (not treated as 0, no error). -/
theorem C5_wrapper_guard (s e : ℕ) (tz : ℤ) (o : ObsProps) :
    (∀ (w : Option (Option ℚ)) (v : ℚ), extractVal w = some v ↔ w = some (some v)) ∧
    extractVal (some Option.none) = Option.none ∧
    collectNighttime [o] s e tz =
      (if keeps s e (localHour o.utcHour tz) = true then
        ((extractVal o.temperature).toList,
         (extractVal o.relativeHumidity).toList,
         (extractVal o.barometricPressure).toList,
         (extractVal o.windSpeed).toList)
       else ([], [], [], [])) := by
  refine ⟨?_, rfl, ?_⟩
  · intro w v
    cases w with
    | none => simp [extractVal]
    | some i => cases i <;> simp [extractVal]
  · by_cases hk : keeps s e (localHour o.utcHour tz) = true <;>
      simp [collectNighttime, hk, maybeAppend_nil]

/-- C5 witness: an in-window observation with a null-valued temperature
wrapper contributes its humidity 50 and wind 2 but no temperature. -/
theorem C5_witness :
    extractVal (some Option.none) = Option.none ∧
    collectNighttime [oW] 21 6 (-4) =
      (if keeps 21 6 (localHour oW.utcHour (-4)) = true then
        ((extractVal oW.temperature).toList,
         (extractVal oW.relativeHumidity).toList,
         (extractVal oW.barometricPressure).toList,
         (extractVal oW.windSpeed).toList)
       else ([], [], [], [])) :=
  ⟨(C5_wrapper_guard 21 6 (-4) oW).2.1, (C5_wrapper_guard 21 6 (-4) oW).2.2⟩

/-- C6: the live observation fetcher fails with `NoStationsNearby` on an
empty stations list, and otherwise fetches the observation feed of exactly
the first station in the returned list. -/
theorem C6_station_selection :
    (∀ fetchObs : String → List ObsProps,
        get_hourly_weather [] fetchObs = Except.error LiveError.noStationsNearby) ∧
    (∀ (f : StationFeature) (rest : List StationFeature)
        (fetchObs : String → List ObsProps),
        get_hourly_weather (f :: rest) fetchObs =
          Except.ok (fetchObs f.stationIdentifier)) :=
  ⟨fun _ => rfl, fun _ _ _ => rfl⟩

/-- C6 witness: with stations `[S1, S2]` the feed of `S1` is returned; with
no stations the fetch fails. -/
theorem C6_witness :
    get_hourly_weather [] fetchW = Except.error LiveError.noStationsNearby ∧
    get_hourly_weather [⟨"S1"⟩, ⟨"S2"⟩] fetchW = Except.ok (fetchW ("S1")) :=
  ⟨C6_station_selection.1 fetchW, C6_station_selection.2 ⟨"S1"⟩ [⟨"S2"⟩] fetchW⟩

/-- C7: Scenario A.  Observations at local hours `[20,21,22,23,0,5,7]` with
temperatures `[10,…,16]` under the default window `(21,6)` keep exactly the
observations at local hours `[21,22,23,0,5]` with temperatures
`[11,12,13,14,15]`, and the average temperature is 13.00. -/
theorem C7_scenarioA :
    (collectNighttime scenarioA 21 6 (-4)).1 = [11, 12, 13, 14, 15] ∧
    (keptObs scenarioA 21 6 (-4)).map (fun o => localHour o.utcHour (-4)) =
      [21, 22, 23, 0, 5] ∧
    filter_nighttime_data scenarioA 21 6 (-4) =
      { avg_temp_C := PyVal.num 13
        avg_humidity_percent := PyVal.none
        avg_pressure_Pa := PyVal.none
        avg_wind_mps := PyVal.none } := by
  refine ⟨rfl, rfl, ?_⟩
  have hc : collectNighttime scenarioA 21 6 (-4) = ([11, 12, 13, 14, 15], [], [], []) :=
    rfl
  have hm : mean [11, 12, 13, 14, 15] = (13 : ℚ) := by
    simp [mean]
    norm_num
  have hr : roundTo2 (13 : ℚ) = 13 := by
    have h := roundTo2_int 13
    push_cast at h
    exact h
  simp [filter_nighttime_data, hc, avgOrNone, hm, hr]

/-- C8: for every input the live-path aggregator returns a dict with exactly
the four keys `avg_temp_C`, `avg_humidity_percent`, `avg_pressure_Pa`,
`avg_wind_mps`, each bound to `None` or to a number (never NaN), and the
dict is never empty. -/
theorem C8_record_shape (obs : List ObsProps) (s e : ℕ) (tz : ℤ) :
    (filter_nighttime_data obs s e tz).toDict.map Prod.fst =
      ["avg_temp_C", "avg_humidity_percent", "avg_pressure_Pa", "avg_wind_mps"] ∧
    (filter_nighttime_data obs s e tz).toDict ≠ [] ∧
    ((filter_nighttime_data obs s e tz).avg_temp_C = PyVal.none ∨
      ∃ q, (filter_nighttime_data obs s e tz).avg_temp_C = PyVal.num q) ∧
    ((filter_nighttime_data obs s e tz).avg_humidity_percent = PyVal.none ∨
      ∃ q, (filter_nighttime_data obs s e tz).avg_humidity_percent = PyVal.num q) ∧
    ((filter_nighttime_data obs s e tz).avg_pressure_Pa = PyVal.none ∨
      ∃ q, (filter_nighttime_data obs s e tz).avg_pressure_Pa = PyVal.num q) ∧
    ((filter_nighttime_data obs s e tz).avg_wind_mps = PyVal.none ∨
      ∃ q, (filter_nighttime_data obs s e tz).avg_wind_mps = PyVal.num q) := by
  refine ⟨rfl, by simp [AggregateRecord.toDict], ?_, ?_, ?_, ?_⟩ <;>
    rw [filter_nighttime_fields] <;> exact avgOrNone_none_or_num _

/-- C8 witness: the record for Scenario A has the four keys in order and is
non-empty. -/
theorem C8_witness :
    (filter_nighttime_data scenarioA 21 6 (-4)).toDict.map Prod.fst =
      ["avg_temp_C", "avg_humidity_percent", "avg_pressure_Pa", "avg_wind_mps"] ∧
    (filter_nighttime_data scenarioA 21 6 (-4)).toDict ≠ [] :=
  ⟨(C8_record_shape scenarioA 21 6 (-4)).1, (C8_record_shape scenarioA 21 6 (-4)).2.1⟩

/-- C9: the historical path evaluates the night-window test directly on the
raw hour of the archive's local-naive timestamps (its kept rows pass the
test unshifted, and the embedded `get_historical_weather` mirrors the
source's signature in having no timezone-offset parameter), unlike the live
path, whose local hour with offset 0 is the identity but with the default
offset `-4` is shifted by 20 modulo 24; hour 0 is kept by the historical
filter yet dropped by the live filter at the default offset. -/
theorem C9_no_tz_shift :
    (∀ h : ℕ, h < 24 → localHour h 0 = (h : ℤ)) ∧
    (∀ h : ℕ, localHour h (-4) = ((h : ℤ) + 20) % 24) ∧
    (∀ (d : HourlyData) (s e : ℕ) (row : HistRow),
        row ∈ night_rows d s e → keeps s e (row.time.hour : ℤ) = true) ∧
    (keeps 21 6 (0 : ℤ) = true ∧ keeps 21 6 (localHour 0 (-4)) = false) := by
  refine ⟨?_, ?_, ?_, by decide⟩
  · intro h hh
    simp only [localHour, add_zero]
    omega
  · intro h
    simp only [localHour]
    omega
  · intro d s e row hrow
    exact (List.mem_filter.mp hrow).2

/-- C9 witness: hour 5 is unshifted at offset 0; the midnight row of
`dNight0` is kept by the historical filter on its raw hour. -/
theorem C9_witness :
    localHour 5 0 = (5 : ℤ) ∧ keeps 21 6 ((0 : ℕ) : ℤ) = true :=
  ⟨C9_no_tz_shift.1 5 (by decide),
   C9_no_tz_shift.2.2.1 dNight0 21 6 rowNight0 (by decide)⟩

/-- C10: the CLI branch printing "No nighttime weather data available." is
unreachable: on every non-error path the aggregate dict has four entries,
so the Python falsiness test on it is always false. -/
theorem C10_no_data_branch_unreachable (obs : List ObsProps) (s e : ℕ) (tz : ℤ)
    (d : HourlyData) (r : AggregateRecord)
    (_h : get_historical_weather d s e = Except.ok r) :
    py_not_dict (filter_nighttime_data obs s e tz).toDict = false ∧
    py_not_dict r.toDict = false :=
  ⟨rfl, rfl⟩

/-- C10 witness: the empty live input and the all-NaN historical record of
`histNoon` both give a truthy (non-empty) dict. -/
theorem C10_witness :
    py_not_dict (filter_nighttime_data [] 21 6 (-4)).toDict = false ∧
    py_not_dict
      (AggregateRecord.toDict
        { avg_temp_C := PyVal.nan, avg_humidity_percent := PyVal.nan,
          avg_pressure_Pa := PyVal.nan, avg_wind_mps := PyVal.nan }) = false :=
  C10_no_data_branch_unreachable [] 21 6 (-4) histNoon
    { avg_temp_C := PyVal.nan, avg_humidity_percent := PyVal.nan,
      avg_pressure_Pa := PyVal.nan, avg_wind_mps := PyVal.nan } rfl

/-- C1 counterexample: for the equal-length archive input `histNoon` no kept
row contributes a value for any metric, so the claim requires all four
averages to be `None`; the historical aggregator instead returns NaN for
all four, and NaN is not `None`. -/
theorem C1_counterexample :
    get_historical_weather histNoon 21 6 =
      Except.ok { avg_temp_C := PyVal.nan, avg_humidity_percent := PyVal.nan,
                  avg_pressure_Pa := PyVal.nan, avg_wind_mps := PyVal.nan } ∧
    histKeptVals histNoon 21 6 HistRow.temperature_C = [] ∧
    PyVal.nan ≠ PyVal.none :=
  ⟨rfl, rfl, by decide⟩

/-- C1 amended: on the live path each metric of the aggregate is `None` iff
zero kept observations contribute a non-null value for it, and otherwise is
the arithmetic mean of those values rounded to 2 decimals; on the
historical path the same holds with NaN in place of `None` as the
no-data marker. -/
theorem C1_per_metric_mean :
    (∀ (obs : List ObsProps) (s e : ℕ) (tz : ℤ),
      (((filter_nighttime_data obs s e tz).avg_temp_C = PyVal.none ↔
          keptTemps obs s e tz = []) ∧
        (keptTemps obs s e tz ≠ [] →
          (filter_nighttime_data obs s e tz).avg_temp_C =
            PyVal.num (roundTo2 (mean (keptTemps obs s e tz))))) ∧
      (((filter_nighttime_data obs s e tz).avg_humidity_percent = PyVal.none ↔
          keptHums obs s e tz = []) ∧
        (keptHums obs s e tz ≠ [] →
          (filter_nighttime_data obs s e tz).avg_humidity_percent =
            PyVal.num (roundTo2 (mean (keptHums obs s e tz))))) ∧
      (((filter_nighttime_data obs s e tz).avg_pressure_Pa = PyVal.none ↔
          keptPress obs s e tz = []) ∧
        (keptPress obs s e tz ≠ [] →
          (filter_nighttime_data obs s e tz).avg_pressure_Pa =
            PyVal.num (roundTo2 (mean (keptPress obs s e tz))))) ∧
      (((filter_nighttime_data obs s e tz).avg_wind_mps = PyVal.none ↔
          keptWinds obs s e tz = []) ∧
        (keptWinds obs s e tz ≠ [] →
          (filter_nighttime_data obs s e tz).avg_wind_mps =
            PyVal.num (roundTo2 (mean (keptWinds obs s e tz)))))) ∧
    (∀ (d : HourlyData) (s e : ℕ) (r : AggregateRecord),
      get_historical_weather d s e = Except.ok r →
      ((r.avg_temp_C = PyVal.nan ↔
          histKeptVals d s e HistRow.temperature_C = []) ∧
        (histKeptVals d s e HistRow.temperature_C ≠ [] →
          r.avg_temp_C =
            PyVal.num (roundTo2 (mean (histKeptVals d s e HistRow.temperature_C))))) ∧
      ((r.avg_humidity_percent = PyVal.nan ↔
          histKeptVals d s e HistRow.humidity_percent = []) ∧
        (histKeptVals d s e HistRow.humidity_percent ≠ [] →
          r.avg_humidity_percent =
            PyVal.num (roundTo2 (mean (histKeptVals d s e HistRow.humidity_percent))))) ∧
      ((r.avg_pressure_Pa = PyVal.nan ↔
          histKeptVals d s e HistRow.pressure_Pa = []) ∧
        (histKeptVals d s e HistRow.pressure_Pa ≠ [] →
          r.avg_pressure_Pa =
            PyVal.num (roundTo2 (mean (histKeptVals d s e HistRow.pressure_Pa))))) ∧
      ((r.avg_wind_mps = PyVal.nan ↔
          histKeptVals d s e HistRow.wind_mps = []) ∧
        (histKeptVals d s e HistRow.wind_mps ≠ [] →
          r.avg_wind_mps =
            PyVal.num (roundTo2 (mean (histKeptVals d s e HistRow.wind_mps)))))) := by
  constructor
  · intro obs s e tz
    rw [filter_nighttime_fields]
    exact ⟨avgOrNone_spec _, avgOrNone_spec _, avgOrNone_spec _, avgOrNone_spec _⟩
  · intro d s e r h
    rw [get_historical_ok d s e r h]
    simp only [histKeptVals]
    exact ⟨round_mean_2_spec _, round_mean_2_spec _, round_mean_2_spec _,
      round_mean_2_spec _⟩

/-- C1 witness: for `obsLive2` the temperature average is the rounded mean
of its two kept temperatures, and for `histNoon` the temperature field is
NaN exactly because no kept row carries a temperature. -/
theorem C1_witness :
    (filter_nighttime_data obsLive2 21 6 (-4)).avg_temp_C =
      PyVal.num (roundTo2 (mean (keptTemps obsLive2 21 6 (-4)))) ∧
    ({ avg_temp_C := PyVal.nan, avg_humidity_percent := PyVal.nan,
       avg_pressure_Pa := PyVal.nan,
       avg_wind_mps := PyVal.nan : AggregateRecord }.avg_temp_C = PyVal.nan ↔
      histKeptVals histNoon 21 6 HistRow.temperature_C = []) :=
  ⟨(C1_per_metric_mean.1 obsLive2 21 6 (-4)).1.2 (by decide),
   (C1_per_metric_mean.2 histNoon 21 6
      { avg_temp_C := PyVal.nan, avg_humidity_percent := PyVal.nan,
        avg_pressure_Pa := PyVal.nan, avg_wind_mps := PyVal.nan } rfl).1.1⟩

end SleepApp
